import Mathlib

/-!
Shallow embedding of `src/pre_analyse/fetch_data.py` (`scrape_ncss_data`).

The scraper issues one HTTP GET per page index, parses the returned HTML
for `<li>` items, extracts one record per item that contains an anchor,
accumulates the records across pages, and finally writes them to a CSV
file (UTF-8 with byte-order mark) unless no record was accumulated.

Python `None` is modelled as `Option.none`; a Python string as
`Option.some s`.  HTML structure is modelled only as deeply as the code
inspects it: an item exposes its first anchor (with optional `href`) and
the four labeled `div` sub-elements (each with an optional `title`
attribute).  The network is modelled as a function from page index to a
raw fetch outcome.
-/

namespace NCSS

/-- A `div` sub-element as the code sees it: `div.get('title')` yields the
`title` attribute or `None`. -/
structure SubDiv where
  title : Option String
deriving DecidableEq

/-- An anchor as the code sees it: `link_tag.get('href')` yields the
`href` attribute or `None`. -/
structure Anchor where
  href : Option String
deriving DecidableEq

/-- One `<li>` node, reduced to exactly what `scrape_ncss_data` reads from
it: `item_li.find('a')`, and the four class-labeled divs
(`cymt-left`, `cymt-mtqy`, `cymt-mtzb`, `cymt-mtlb`). -/
structure ListItem where
  anchor : Option Anchor
  titleDiv : Option SubDiv
  companyDiv : Option SubDiv
  groupDiv : Option SubDiv
  categoryDiv : Option SubDiv
deriving DecidableEq

/-- One extracted record, the dict appended to `all_items_data`.  Each
field is `Option String` because the Python dict values can be `None`
(absent `href`, or a present div without a `title` attribute). -/
structure Record where
  link : Option String
  title : Option String
  company : Option String
  group : Option String
  category : Option String
deriving DecidableEq

/-- `domain_url = "https://cy.ncss.cn"` from the source. -/
def domain_url : String := "https://cy.ncss.cn"

/-- `href.startswith('/')`: the string begins with the character `'/'`. -/
def startswith_slash (h : String) : Bool :=
  match h.data with
  | [] => false
  | c :: _ => c = '/'

/-- `full_link = domain_url + href if href and href.startswith('/') else href`.
The Python truthiness test `href` is `href is not None and href != ""`. -/
def full_link (href : Option String) : Option String :=
  match href with
  | none => none
  | some h => if h ≠ "" ∧ startswith_slash h then some (domain_url ++ h) else some h

/-- `div.get('title') if div else ''` : empty string when the div is
absent, otherwise the `title` attribute (which may be `None`). -/
def attrOrEmpty (div : Option SubDiv) : Option String :=
  match div with
  | some d => d.title
  | none => some ""

/-- The per-item body of the extraction loop: `item_li.find('a')`; if no
anchor, `continue` (no record); otherwise build the five-field dict. -/
def extractItem (li : ListItem) : Option Record :=
  match li.anchor with
  | none => none
  | some a =>
      some { link := full_link a.href
             title := attrOrEmpty li.titleDiv
             company := attrOrEmpty li.companyDiv
             group := attrOrEmpty li.groupDiv
             category := attrOrEmpty li.categoryDiv }

/-- Records extracted from one page's list items, in document order. -/
def extractRecords (items : List ListItem) : List Record :=
  items.filterMap extractItem

/-- Outcome of the raw HTTP GET for one page, before
`raise_for_status`: a response with a status code and the parsed list
items, a timeout, another request error, or an unexpected error raised
part-way through the per-item loop after some prefix of the items was
already processed. -/
inductive RawFetch where
  | response (status : Nat) (items : List ListItem)
  | timeout
  | networkError
  | unexpectedDuring (processed : List ListItem)
deriving DecidableEq

/-- `response.raise_for_status()` raises `HTTPError` exactly for
`400 <= status_code < 600` (4xx and 5xx), per the requests library and
the source's own comment. -/
def raise_for_status (status : Nat) : Bool :=
  decide (400 ≤ status ∧ status < 600)

/-- How one loop iteration classifies its page, matching the `except`
clauses in the source: `Timeout` skips, `HTTPError` and other
`RequestException`s abort, a bare `Exception` skips. -/
inductive PageOutcome where
  | success (items : List ListItem)
  | timeout
  | httpError (status : Nat)
  | networkError
  | unexpectedError (processed : List ListItem)
deriving DecidableEq

/-- Classification of a raw fetch: a response raises `HTTPError` iff
`raise_for_status` fires, otherwise its content is parsed. -/
def classify : RawFetch → PageOutcome
  | RawFetch.response status items =>
      if raise_for_status status then PageOutcome.httpError status
      else PageOutcome.success items
  | RawFetch.timeout => PageOutcome.timeout
  | RawFetch.networkError => PageOutcome.networkError
  | RawFetch.unexpectedDuring processed => PageOutcome.unexpectedError processed

/-- Result of the scraping loop: the accumulated `all_items_data` and the
list of page indices for which the loop body ran (a fetch was issued). -/
structure LoopResult where
  records : List Record
  attempted : List Nat
deriving DecidableEq

/-- Prepend a page index to the attempted list of a loop result. -/
def consAttempt (p : Nat) (r : LoopResult) : LoopResult :=
  { records := r.records, attempted := p :: r.attempted }

/-- The `for page_index in range(1, max_pages + 1)` loop.  `rem` is the
number of iterations left, `pageIndex` the current index, `acc` the
accumulated `all_items_data`.
Branches, in source order: on success, break when the page has no list
items and `page_index > 1`; otherwise append the extracted records and
continue.  `Timeout` continues with nothing appended; `HTTPError` and
other `RequestException`s break; an unexpected `Exception` continues,
keeping the records appended before the error. -/
def scrapeGo (env : Nat → RawFetch) : Nat → Nat → List Record → LoopResult
  | 0, _, acc => { records := acc, attempted := [] }
  | Nat.succ rem, pageIndex, acc =>
    match classify (env pageIndex) with
    | PageOutcome.success items =>
        if items = [] ∧ 1 < pageIndex then
          { records := acc, attempted := [pageIndex] }
        else
          consAttempt pageIndex (scrapeGo env rem (pageIndex + 1) (acc ++ extractRecords items))
    | PageOutcome.timeout =>
        consAttempt pageIndex (scrapeGo env rem (pageIndex + 1) acc)
    | PageOutcome.httpError _ => { records := acc, attempted := [pageIndex] }
    | PageOutcome.networkError => { records := acc, attempted := [pageIndex] }
    | PageOutcome.unexpectedError processed =>
        consAttempt pageIndex (scrapeGo env rem (pageIndex + 1) (acc ++ extractRecords processed))

/-- The whole loop: pages `1 .. max_pages`, starting from an empty
accumulator. -/
def runLoop (env : Nat → RawFetch) (maxPages : Nat) : LoopResult :=
  scrapeGo env maxPages 1 []

/-- `csv_fieldnames = ['Link', 'Title', 'Company', 'Group', 'Category']`. -/
def csv_fieldnames : List String := ["Link", "Title", "Company", "Group", "Category"]

/-- One CSV row for a record: the `csv` module writes a `None` value as an
empty field. -/
def recordRow (r : Record) : List String :=
  [r.link.getD "", r.title.getD "", r.company.getD "", r.group.getD "", r.category.getD ""]

/-- The written CSV file: `bom` records the `utf-8-sig` encoding (a
byte-order mark is emitted), then the header row and the data rows. -/
structure CsvFile where
  bom : Bool
  header : List String
  rows : List (List String)
deriving DecidableEq

/-- `scrape_ncss_data(max_pages, output_csv_file)`: run the loop; if
`all_items_data` is empty, return without creating the file (`none`);
otherwise write header plus one row per record in accumulation order. -/
def scrape_ncss_data (env : Nat → RawFetch) (max_pages : Nat) : Option CsvFile :=
  let res := runLoop env max_pages
  if res.records = [] then none
  else some { bom := true, header := csv_fieldnames, rows := res.records.map recordRow }

/-- Spec-side predicate, for refinement comparison only: a 2xx HTTP
status.  The spec claims fetch raises exactly on non-2xx. -/
def spec_is2xx (status : Nat) : Bool :=
  decide (200 ≤ status ∧ status < 300)

/-! Structural lemmas about one iteration of the loop. -/

theorem scrapeGo_success_break (env : Nat → RawFetch) (rem p : Nat) (acc : List Record)
    (hcl : classify (env p) = PageOutcome.success []) (hp : 1 < p) :
    scrapeGo env (rem + 1) p acc = { records := acc, attempted := [p] } := by
  simp [scrapeGo, hcl, hp]

theorem scrapeGo_success_cont (env : Nat → RawFetch) (rem p : Nat) (acc : List Record)
    (items : List ListItem) (hcl : classify (env p) = PageOutcome.success items)
    (h : ¬(items = [] ∧ 1 < p)) :
    scrapeGo env (rem + 1) p acc =
      consAttempt p (scrapeGo env rem (p + 1) (acc ++ extractRecords items)) := by
  simp only [scrapeGo, hcl]
  rw [if_neg h]

theorem scrapeGo_timeout (env : Nat → RawFetch) (rem p : Nat) (acc : List Record)
    (hcl : classify (env p) = PageOutcome.timeout) :
    scrapeGo env (rem + 1) p acc = consAttempt p (scrapeGo env rem (p + 1) acc) := by
  simp only [scrapeGo, hcl]

theorem scrapeGo_httpError (env : Nat → RawFetch) (rem p : Nat) (acc : List Record)
    (s : Nat) (hcl : classify (env p) = PageOutcome.httpError s) :
    scrapeGo env (rem + 1) p acc = { records := acc, attempted := [p] } := by
  simp only [scrapeGo, hcl]

theorem scrapeGo_networkError (env : Nat → RawFetch) (rem p : Nat) (acc : List Record)
    (hcl : classify (env p) = PageOutcome.networkError) :
    scrapeGo env (rem + 1) p acc = { records := acc, attempted := [p] } := by
  simp only [scrapeGo, hcl]

theorem scrapeGo_unexpected (env : Nat → RawFetch) (rem p : Nat) (acc : List Record)
    (pr : List ListItem) (hcl : classify (env p) = PageOutcome.unexpectedError pr) :
    scrapeGo env (rem + 1) p acc =
      consAttempt p (scrapeGo env rem (p + 1) (acc ++ extractRecords pr)) := by
  simp only [scrapeGo, hcl]

/-- The accumulator only grows: the loop's final record list extends the
records already accumulated when it starts. -/
theorem scrapeGo_records_extend (env : Nat → RawFetch) :
    ∀ rem start acc, ∃ rest, (scrapeGo env rem start acc).records = acc ++ rest := by
  intro rem
  induction rem with
  | zero => intro start acc; exact ⟨[], by simp [scrapeGo]⟩
  | succ n ih =>
    intro start acc
    cases hcl : classify (env start) with
    | success items =>
      by_cases hb : items = [] ∧ 1 < start
      · rw [scrapeGo_success_break env n start acc (hb.1 ▸ hcl) hb.2]
        exact ⟨[], by simp⟩
      · rw [scrapeGo_success_cont env n start acc items hcl hb]
        obtain ⟨r, hr⟩ := ih (start + 1) (acc ++ extractRecords items)
        exact ⟨extractRecords items ++ r, by simp [consAttempt, hr]⟩
    | timeout =>
      rw [scrapeGo_timeout env n start acc hcl]
      obtain ⟨r, hr⟩ := ih (start + 1) acc
      exact ⟨r, by simp [consAttempt, hr]⟩
    | httpError s =>
      rw [scrapeGo_httpError env n start acc s hcl]
      exact ⟨[], by simp⟩
    | networkError =>
      rw [scrapeGo_networkError env n start acc hcl]
      exact ⟨[], by simp⟩
    | unexpectedError pr =>
      rw [scrapeGo_unexpected env n start acc pr hcl]
      obtain ⟨r, hr⟩ := ih (start + 1) (acc ++ extractRecords pr)
      exact ⟨extractRecords pr ++ r, by simp [consAttempt, hr]⟩

/-- Pages are visited in increasing order: every attempted index is at
least the starting index. -/
theorem scrapeGo_attempted_ge (env : Nat → RawFetch) :
    ∀ rem start acc q, q ∈ (scrapeGo env rem start acc).attempted → start ≤ q := by
  intro rem
  induction rem with
  | zero => intro start acc q hq; simp [scrapeGo] at hq
  | succ n ih =>
    intro start acc q hq
    cases hcl : classify (env start) with
    | success items =>
      by_cases hb : items = [] ∧ 1 < start
      · rw [scrapeGo_success_break env n start acc (hb.1 ▸ hcl) hb.2] at hq
        simp at hq; omega
      · rw [scrapeGo_success_cont env n start acc items hcl hb] at hq
        simp [consAttempt] at hq
        rcases hq with hq | hq
        · omega
        · have := ih (start + 1) (acc ++ extractRecords items) q hq; omega
    | timeout =>
      rw [scrapeGo_timeout env n start acc hcl] at hq
      simp [consAttempt] at hq
      rcases hq with hq | hq
      · omega
      · have := ih (start + 1) acc q hq; omega
    | httpError s =>
      rw [scrapeGo_httpError env n start acc s hcl] at hq
      simp at hq; omega
    | networkError =>
      rw [scrapeGo_networkError env n start acc hcl] at hq
      simp at hq; omega
    | unexpectedError pr =>
      rw [scrapeGo_unexpected env n start acc pr hcl] at hq
      simp [consAttempt] at hq
      rcases hq with hq | hq
      · omega
      · have := ih (start + 1) (acc ++ extractRecords pr) q hq; omega

/-- Once the loop would reach a page `p > 1` whose fetch succeeds with no
list items, it can never attempt a page beyond `p`. -/
theorem scrapeGo_attempted_le_of_empty (env : Nat → RawFetch) (p : Nat)
    (hp : 1 < p) (hcl : classify (env p) = PageOutcome.success []) :
    ∀ rem start acc, start ≤ p → ∀ q, q ∈ (scrapeGo env rem start acc).attempted → q ≤ p := by
  intro rem
  induction rem with
  | zero => intro start acc _ q hq; simp [scrapeGo] at hq
  | succ n ih =>
    intro start acc hs q hq
    rcases Nat.lt_or_ge start p with hlt | hge
    · cases hcl2 : classify (env start) with
      | success items =>
        by_cases hb : items = [] ∧ 1 < start
        · rw [scrapeGo_success_break env n start acc (hb.1 ▸ hcl2) hb.2] at hq
          simp at hq; omega
        · rw [scrapeGo_success_cont env n start acc items hcl2 hb] at hq
          simp [consAttempt] at hq
          rcases hq with hq | hq
          · omega
          · exact ih (start + 1) (acc ++ extractRecords items) (by omega) q hq
      | timeout =>
        rw [scrapeGo_timeout env n start acc hcl2] at hq
        simp [consAttempt] at hq
        rcases hq with hq | hq
        · omega
        · exact ih (start + 1) acc (by omega) q hq
      | httpError s =>
        rw [scrapeGo_httpError env n start acc s hcl2] at hq
        simp at hq; omega
      | networkError =>
        rw [scrapeGo_networkError env n start acc hcl2] at hq
        simp at hq; omega
      | unexpectedError pr =>
        rw [scrapeGo_unexpected env n start acc pr hcl2] at hq
        simp [consAttempt] at hq
        rcases hq with hq | hq
        · omega
        · exact ih (start + 1) (acc ++ extractRecords pr) (by omega) q hq
    · have hsp : start = p := by omega
      subst hsp
      rw [scrapeGo_success_break env n start acc hcl hp] at hq
      simp at hq; omega

/-- With at least one iteration left, the starting page is attempted. -/
theorem scrapeGo_start_attempted (env : Nat → RawFetch) (rem start : Nat)
    (acc : List Record) (hr : 0 < rem) :
    start ∈ (scrapeGo env rem start acc).attempted := by
  obtain ⟨n, rfl⟩ : ∃ n, rem = n + 1 := ⟨rem - 1, by omega⟩
  cases hcl : classify (env start) with
  | success items =>
    by_cases hb : items = [] ∧ 1 < start
    · rw [scrapeGo_success_break env n start acc (hb.1 ▸ hcl) hb.2]; simp
    · rw [scrapeGo_success_cont env n start acc items hcl hb]; simp [consAttempt]
  | timeout => rw [scrapeGo_timeout env n start acc hcl]; simp [consAttempt]
  | httpError s => rw [scrapeGo_httpError env n start acc s hcl]; simp
  | networkError => rw [scrapeGo_networkError env n start acc hcl]; simp
  | unexpectedError pr => rw [scrapeGo_unexpected env n start acc pr hcl]; simp [consAttempt]

/-- When every remaining page succeeds and extracts at least one record,
the loop runs to the end of the range and the accumulated records are the
concatenation of the per-page extractions, in page order. -/
theorem scrapeGo_all_success (env : Nat → RawFetch) (its : Nat → List ListItem) :
    ∀ rem start acc,
      (∀ p, start ≤ p → p < start + rem →
        classify (env p) = PageOutcome.success (its p) ∧ extractRecords (its p) ≠ []) →
      (scrapeGo env rem start acc).records =
        acc ++ ((List.range' start rem).map fun p => extractRecords (its p)).flatten := by
  intro rem
  induction rem with
  | zero => intro start acc _; simp [scrapeGo]
  | succ n ih =>
    intro start acc h
    obtain ⟨hcl, hne⟩ := h start (le_refl start) (by omega)
    have hitems : ¬(its start = [] ∧ 1 < start) := by
      intro hb
      rw [hb.1] at hne
      exact hne rfl
    rw [scrapeGo_success_cont env n start acc (its start) hcl hitems]
    have hrec := ih (start + 1) (acc ++ extractRecords (its start))
      (fun p h1 h2 => h p (by omega) (by omega))
    simp only [consAttempt, hrec, List.range'_succ, List.map_cons, List.flatten_cons,
      List.append_assoc]

/-! Concrete fixtures used by counterexamples and witnesses. -/

/-- A well-formed list item: an anchor with a root-relative href and all
four labeled divs carrying title attributes. -/
def itemA : ListItem :=
  ⟨some ⟨some "/a"⟩, some ⟨some "T"⟩, some ⟨some "C"⟩, some ⟨some "G"⟩, some ⟨some "K"⟩⟩

/-- A second well-formed list item. -/
def itemB : ListItem :=
  ⟨some ⟨some "/b"⟩, some ⟨some "T2"⟩, some ⟨some "C2"⟩, some ⟨some "G2"⟩, some ⟨some "K2"⟩⟩

/-- A list item without an anchor: the extraction loop skips it. -/
def itemNoAnchor : ListItem := ⟨none, some ⟨some "T"⟩, none, none, none⟩

/-- Environment refuting C1: page 2 holds one list item without an anchor,
so its extracted record count is zero while its list-item count is not. -/
def envC1 : Nat → RawFetch := fun p =>
  if p = 2 then RawFetch.response 200 [itemNoAnchor] else RawFetch.response 200 [itemA]

/-- C1, counterexample.  The claim says a page with index greater than 1
whose extracted record count is zero makes the loop break.  On page 2 of
this run the extracted record count is zero (its only list item has no
anchor), yet the loop still attempts page 3: the code tests the list-item
count, not the record count. -/
theorem C1_counterexample :
    extractRecords [itemNoAnchor] = [] ∧ (1 : Nat) < 2 ∧
      3 ∈ (runLoop envC1 3).attempted := by
  decide

/-- C1, amended.  For every run and every page index greater than 1, if
the page's fetched list-item count (rather than its extracted record
count) is zero, the loop breaks and attempts no later page; page 1
yielding zero list items does not terminate the loop, which continues to
page 2. -/
theorem C1_empty_page_rule :
    (∀ (env : Nat → RawFetch) (maxPages p q : Nat), 1 < p →
      classify (env p) = PageOutcome.success [] → p < q →
        q ∉ (runLoop env maxPages).attempted) ∧
    (∀ (env : Nat → RawFetch) (maxPages : Nat), 2 ≤ maxPages →
      classify (env 1) = PageOutcome.success [] →
        2 ∈ (runLoop env maxPages).attempted) := by
  constructor
  · intro env maxPages p q hp hcl hq hmem
    have := scrapeGo_attempted_le_of_empty env p hp hcl maxPages 1 [] (by omega) q hmem
    omega
  · intro env maxPages hmp hcl
    obtain ⟨n, rfl⟩ : ∃ n, maxPages = n + 2 := ⟨maxPages - 2, by omega⟩
    rw [runLoop, scrapeGo_success_cont env (n + 1) 1 [] [] hcl (by simp)]
    simp only [consAttempt, List.mem_cons]
    exact Or.inr (scrapeGo_start_attempted env (n + 1) 2 _ (by omega))

/-- Environment for the C1 witness: every page succeeds with no list
items at all. -/
def envC1w : Nat → RawFetch := fun _ => RawFetch.response 200 []

/-- C1 witness: with every page empty, page 3 is never attempted (page 2
terminates the run) while page 2 itself is still attempted after the
empty page 1. -/
theorem C1_empty_page_rule_witness :
    3 ∉ (runLoop envC1w 5).attempted ∧ 2 ∈ (runLoop envC1w 2).attempted :=
  ⟨C1_empty_page_rule.1 envC1w 5 2 3 (by decide) (by decide) (by decide),
   C1_empty_page_rule.2 envC1w 2 (by decide) (by decide)⟩

/-- C2.  If the fetch of a page with index greater than 1 succeeds with
zero list items, no page with a larger index is ever attempted in that
run. -/
theorem C2_halt_after_empty_page (env : Nat → RawFetch) (maxPages p q : Nat)
    (hp : 1 < p) (hcl : classify (env p) = PageOutcome.success []) (hq : p < q) :
    q ∉ (runLoop env maxPages).attempted := by
  intro hmem
  have := scrapeGo_attempted_le_of_empty env p hp hcl maxPages 1 [] (by omega) q hmem
  omega

/-- Environment for the C2 witness: pages 1–4 return one normal item,
page 5 onward return no list items. -/
def envC2w : Nat → RawFetch := fun p =>
  if p < 5 then RawFetch.response 200 [itemA] else RawFetch.response 200 []

/-- C2 witness: page 5 of this run returns zero list items, and page 6 is
not attempted even with eight pages requested. -/
theorem C2_halt_after_empty_page_witness : 6 ∉ (runLoop envC2w 8).attempted :=
  C2_halt_after_empty_page envC2w 8 5 6 (by decide) (by decide) (by decide)

/-- C3, counterexample.  The claim says fetch raises exactly on non-2xx
statuses.  Status 304 is not 2xx, yet `raise_for_status` does not fire
and the page's content is parsed as a success. -/
theorem C3_counterexample :
    spec_is2xx 304 = false ∧
      classify (RawFetch.response 304 []) = PageOutcome.success [] := by
  decide

/-- C3, amended.  Fetch raises `HTTPError` if and only if the status is
4xx or 5xx (`400 ≤ s < 600`); any other status, 1xx and 3xx included,
returns the content as a success. -/
theorem C3_raise_iff_4xx_or_5xx (s : Nat) (items : List ListItem) :
    ((∃ e, classify (RawFetch.response s items) = PageOutcome.httpError e) ↔
      400 ≤ s ∧ s < 600) ∧
    (classify (RawFetch.response s items) = PageOutcome.success items ↔
      ¬(400 ≤ s ∧ s < 600)) := by
  by_cases h : 400 ≤ s ∧ s < 600 <;> simp [classify, raise_for_status, h]

/-- C3 witness: a 1xx status (100) is not 4xx/5xx, so its content is
parsed as a success. -/
theorem C3_raise_iff_4xx_or_5xx_witness :
    classify (RawFetch.response 100 []) = PageOutcome.success [] :=
  (C3_raise_iff_4xx_or_5xx 100 []).2.mpr (by decide)

/-- Environment for the C4 scenario: page 1 yields two records, page 2
one record, page 3 answers HTTP 403. -/
def envC4 : Nat → RawFetch := fun p =>
  if p = 1 then RawFetch.response 200 [itemA, itemB]
  else if p = 2 then RawFetch.response 200 [itemA]
  else RawFetch.response 403 []

/-- C4.  Per-page failure classification: a timeout skips the page and
continues with the next index and nothing appended; an `HTTPError` or any
other request error aborts the loop at once, keeping the records already
accumulated; an unexpected error skips the page, keeping the records
appended before it; whenever the accumulated list is nonempty it is
written out in full; and in the spec scenario (maxPages large enough,
page 1 two records, page 2 one record, page 3 HTTP 403) the loop halts at
page 3 and the file holds exactly the three rows from pages 1–2. -/
theorem C4_error_classification :
    (∀ (env : Nat → RawFetch) (rem p : Nat) (acc : List Record),
      classify (env p) = PageOutcome.timeout →
        scrapeGo env (rem + 1) p acc = consAttempt p (scrapeGo env rem (p + 1) acc)) ∧
    (∀ (env : Nat → RawFetch) (rem p : Nat) (acc : List Record) (s : Nat),
      classify (env p) = PageOutcome.httpError s →
        scrapeGo env (rem + 1) p acc = { records := acc, attempted := [p] }) ∧
    (∀ (env : Nat → RawFetch) (rem p : Nat) (acc : List Record),
      classify (env p) = PageOutcome.networkError →
        scrapeGo env (rem + 1) p acc = { records := acc, attempted := [p] }) ∧
    (∀ (env : Nat → RawFetch) (rem p : Nat) (acc : List Record) (pr : List ListItem),
      classify (env p) = PageOutcome.unexpectedError pr →
        scrapeGo env (rem + 1) p acc =
          consAttempt p (scrapeGo env rem (p + 1) (acc ++ extractRecords pr))) ∧
    (∀ (env : Nat → RawFetch) (maxPages : Nat),
      (runLoop env maxPages).records ≠ [] →
        scrape_ncss_data env maxPages =
          some { bom := true, header := csv_fieldnames,
                 rows := (runLoop env maxPages).records.map recordRow }) ∧
    ((runLoop envC4 5).attempted = [1, 2, 3] ∧
      scrape_ncss_data envC4 5 =
        some ⟨true, csv_fieldnames,
          [["https://cy.ncss.cn/a", "T", "C", "G", "K"],
           ["https://cy.ncss.cn/b", "T2", "C2", "G2", "K2"],
           ["https://cy.ncss.cn/a", "T", "C", "G", "K"]]⟩) := by
  refine ⟨scrapeGo_timeout, scrapeGo_httpError, scrapeGo_networkError, scrapeGo_unexpected,
    ?_, by decide⟩
  intro env maxPages h
  simp only [scrape_ncss_data]
  rw [if_neg h]

/-- Environment for the C4 witness: page 1 yields one record, page 2
answers HTTP 500. -/
def envC4w : Nat → RawFetch := fun p =>
  if p = 1 then RawFetch.response 200 [itemA] else RawFetch.response 500 []

/-- C4 witness: instantiating the classification rules on a concrete run
where page 2 aborts with HTTP 500 after page 1 accumulated one record. -/
theorem C4_error_classification_witness :
    scrapeGo envC4w 3 2 (extractRecords [itemA]) =
      { records := extractRecords [itemA], attempted := [2] } ∧
    scrape_ncss_data envC4w 4 =
      some { bom := true, header := csv_fieldnames,
             rows := (runLoop envC4w 4).records.map recordRow } :=
  ⟨C4_error_classification.2.1 envC4w 2 2 (extractRecords [itemA]) 500 (by decide),
   C4_error_classification.2.2.2.2.1 envC4w 4 (by decide)⟩

/-- A list item whose anchor has no href and whose title div is present
but carries no title attribute. -/
def itemNoneFields : ListItem := ⟨some ⟨none⟩, some ⟨none⟩, none, none, none⟩

/-- C5, counterexample.  The claim says each of the five fields of every
extracted record is a string.  For this item the anchor has no href and
the title div has no title attribute, so the extracted record's link and
title are Python `None`, not strings. -/
theorem C5_counterexample :
    extractItem itemNoneFields = some ⟨none, none, some "", some "", some ""⟩ ∧
      (extractItem itemNoneFields).map (fun r => r.link.isSome) = some false ∧
      (extractItem itemNoneFields).map (fun r => r.title.isSome) = some false := by
  decide

/-- C5, amended.  For every extracted record, a labeled sub-element that
is absent yields the empty string for its field, and a present
sub-element passes its title attribute through unchanged — so the field
is `None` (not a string) when a present sub-element lacks the attribute,
and the link is `None` when the anchor has no href. -/
theorem C5_missing_field_defaults (li : ListItem) (a : Anchor) (r : Record)
    (ha : li.anchor = some a) (hr : extractItem li = some r) :
    (li.titleDiv = none → r.title = some "") ∧
    (li.companyDiv = none → r.company = some "") ∧
    (li.groupDiv = none → r.group = some "") ∧
    (li.categoryDiv = none → r.category = some "") ∧
    (∀ d, li.titleDiv = some d → r.title = d.title) ∧
    (∀ d, li.companyDiv = some d → r.company = d.title) ∧
    (∀ d, li.groupDiv = some d → r.group = d.title) ∧
    (∀ d, li.categoryDiv = some d → r.category = d.title) ∧
    (a.href = none → r.link = none) := by
  rw [extractItem, ha] at hr
  simp only [Option.some.injEq] at hr
  subst hr
  refine ⟨?_, ?_, ?_, ?_, ?_, ?_, ?_, ?_, ?_⟩ <;>
    first
      | (intro h; simp [attrOrEmpty, h, full_link])
      | (intro d h; simp [attrOrEmpty, h])

/-- C5 witness: instantiating the amended field rules on a concrete item
with an href-less anchor, an attribute-less title div, a present company
div and the other two divs absent. -/
theorem C5_missing_field_defaults_witness :
    (⟨none, none, some "", some "", some ""⟩ : Record).company = some "" ∧
      (⟨none, none, some "", some "", some ""⟩ : Record).link = none :=
  ⟨(C5_missing_field_defaults itemNoneFields ⟨none⟩ ⟨none, none, some "", some "", some ""⟩
      (by decide) (by decide)).2.1 (by decide),
   (C5_missing_field_defaults itemNoneFields ⟨none⟩ ⟨none, none, some "", some "", some ""⟩
      (by decide) (by decide)).2.2.2.2.2.2.2.2 (by decide)⟩

/-- C6.  Link resolution: a root-relative href is prefixed with
`https://cy.ncss.cn`; any other href, the absent href included, passes
through unchanged. -/
theorem C6_link_resolution :
    domain_url = "https://cy.ncss.cn" ∧
    (∀ h : String, startswith_slash h = true →
      full_link (some h) = some (domain_url ++ h)) ∧
    (∀ h : String, startswith_slash h = false → full_link (some h) = some h) ∧
    full_link none = none := by
  refine ⟨rfl, ?_, ?_, rfl⟩
  · intro h hs
    have hne : h ≠ "" := by
      intro he
      subst he
      exact absurd hs (by decide)
    rw [full_link, if_pos ⟨hne, hs⟩]
  · intro h hs
    rw [full_link, if_neg]
    intro hc
    rw [hs] at hc
    exact Bool.false_ne_true hc.2

/-- C6 witness: the spec's own example `/foo/bar` is rewritten, a
non-root-relative href is passed through, an absent href stays absent. -/
theorem C6_link_resolution_witness :
    full_link (some "/foo/bar") = some "https://cy.ncss.cn/foo/bar" ∧
      full_link (some "detail?id=1") = some "detail?id=1" := by
  constructor
  · rw [C6_link_resolution.2.1 "/foo/bar" (by decide)]
    decide
  · exact C6_link_resolution.2.2.1 "detail?id=1" (by decide)

/-- C7.  A list item without an anchor contributes no record: dropping it
changes neither the extraction result nor its count. -/
theorem C7_no_anchor_excluded (li : ListItem) (items : List ListItem)
    (h : li.anchor = none) :
    extractRecords (li :: items) = extractRecords items ∧
      (extractRecords (li :: items)).length = (extractRecords items).length := by
  have he : extractItem li = none := by rw [extractItem, h]
  constructor <;> simp [extractRecords, List.filterMap_cons, he]

/-- C7 witness: the anchor-less fixture contributes nothing next to a
well-formed item. -/
theorem C7_no_anchor_excluded_witness :
    extractRecords [itemNoAnchor, itemA] = extractRecords [itemA] :=
  (C7_no_anchor_excluded itemNoAnchor [itemA] (by decide)).1

/-- C8.  When the loop accumulates no record at all, the run returns
without producing a file. -/
theorem C8_empty_run_no_file (env : Nat → RawFetch) (maxPages : Nat)
    (h : (runLoop env maxPages).records = []) :
    scrape_ncss_data env maxPages = none := by
  simp only [scrape_ncss_data]
  rw [if_pos h]

/-- Environment for the C8 witness: every page times out, so nothing is
ever extracted. -/
def envC8w : Nat → RawFetch := fun _ => RawFetch.timeout

/-- C8 witness: a run of three pages that all time out creates no file. -/
theorem C8_empty_run_no_file_witness : scrape_ncss_data envC8w 3 = none :=
  C8_empty_run_no_file envC8w 3 (by decide)

/-- C9.  The written file carries a byte-order mark, exactly the fixed
header `Link,Title,Company,Group,Category`, and one row per accumulated
record in accumulation order; when every page in `[1, maxPages]` succeeds
with at least one record, the records are the per-page extractions in
page order and the data row count is the sum of the per-page record
counts. -/
theorem C9_csv_shape (env : Nat → RawFetch) (maxPages : Nat) :
    csv_fieldnames = ["Link", "Title", "Company", "Group", "Category"] ∧
    ((runLoop env maxPages).records ≠ [] →
      scrape_ncss_data env maxPages =
        some { bom := true, header := csv_fieldnames,
               rows := (runLoop env maxPages).records.map recordRow }) ∧
    (∀ its : Nat → List ListItem,
      (∀ p, 1 ≤ p → p ≤ maxPages →
        classify (env p) = PageOutcome.success (its p) ∧ extractRecords (its p) ≠ []) →
      (runLoop env maxPages).records =
        ((List.range' 1 maxPages).map fun p => extractRecords (its p)).flatten ∧
      (runLoop env maxPages).records.length =
        ((List.range' 1 maxPages).map fun p => (extractRecords (its p)).length).sum) := by
  refine ⟨rfl, ?_, ?_⟩
  · intro h
    simp only [scrape_ncss_data]
    rw [if_neg h]
  · intro its h
    have hrec := scrapeGo_all_success env its maxPages 1 []
      (fun p h1 h2 => h p h1 (by omega))
    have hmain : (runLoop env maxPages).records =
        ((List.range' 1 maxPages).map fun p => extractRecords (its p)).flatten := by
      simpa [runLoop] using hrec
    refine ⟨hmain, ?_⟩
    rw [hmain, List.length_flatten, List.map_map]
    rfl

/-- Environment for the C9 witness: every page succeeds with one
well-formed item. -/
def envC9w : Nat → RawFetch := fun _ => RawFetch.response 200 [itemA]

/-- C9 witness: a two-page run where every page extracts one record; the
file holds the header plus the accumulated rows, and the record count is
the sum of the two per-page counts. -/
theorem C9_csv_shape_witness :
    scrape_ncss_data envC9w 2 =
      some { bom := true, header := csv_fieldnames,
             rows := (runLoop envC9w 2).records.map recordRow } ∧
    (runLoop envC9w 2).records.length =
      ((List.range' 1 2).map fun p =>
        (extractRecords ((fun _ => [itemA]) p)).length).sum := by
  have hall : ∀ p, 1 ≤ p → p ≤ 2 →
      classify (envC9w p) = PageOutcome.success ((fun _ => [itemA]) p) ∧
        extractRecords ((fun _ => [itemA]) p) ≠ [] := by
    intro p h1 h2
    constructor
    · show classify (RawFetch.response 200 [itemA]) = PageOutcome.success [itemA]
      decide
    · show extractRecords [itemA] ≠ []
      decide
  exact ⟨(C9_csv_shape envC9w 2).2.1 (by decide),
    ((C9_csv_shape envC9w 2).2.2 (fun _ => [itemA]) hall).2⟩

/-- Environment for the C10 scenario: page 1 hits an unexpected error
after one item was already processed, page 2 returns no list items. -/
def envC10 : Nat → RawFetch := fun p =>
  if p = 1 then RawFetch.unexpectedDuring [itemA] else RawFetch.response 200 []

/-- C10.  The per-page skip on an unexpected error is not atomic: the
records appended before the error stay at their place in the accumulated
sequence (they are a prefix extension of the accumulator) and the loop
moves on to the next page; in the concrete scenario the record extracted
on the erroring page 1 is written to the file. -/
theorem C10_partial_page_kept :
    (∀ (env : Nat → RawFetch) (rem p : Nat) (acc : List Record) (pr : List ListItem),
      classify (env p) = PageOutcome.unexpectedError pr →
        (scrapeGo env (rem + 1) p acc).records.take (acc ++ extractRecords pr).length =
          acc ++ extractRecords pr ∧
        (scrapeGo env (rem + 1) p acc).attempted =
          p :: (scrapeGo env rem (p + 1) (acc ++ extractRecords pr)).attempted) ∧
    scrape_ncss_data envC10 2 =
      some ⟨true, csv_fieldnames, [["https://cy.ncss.cn/a", "T", "C", "G", "K"]]⟩ := by
  refine ⟨?_, by decide⟩
  intro env rem p acc pr hcl
  rw [scrapeGo_unexpected env rem p acc pr hcl]
  obtain ⟨rest, hrest⟩ := scrapeGo_records_extend env rem (p + 1) (acc ++ extractRecords pr)
  constructor
  · simp only [consAttempt, hrest]
    exact List.take_left _ _
  · rfl

/-- C10 witness: instantiating the non-atomic-skip rule on the scenario
environment at page 1 with an empty accumulator. -/
theorem C10_partial_page_kept_witness :
    (scrapeGo envC10 2 1 []).records.take ([] ++ extractRecords [itemA]).length =
      [] ++ extractRecords [itemA] :=
  (C10_partial_page_kept.1 envC10 1 1 [] [itemA] (by decide)).1

end NCSS
